import Mathlib

/-!
Shallow embedding of the World-Development-Indicators dashboard core:
the Selection Model (`src/js/selected.js`) and the data-facing parts of the
choropleth pipeline (`src/js/visualizations/geoMap.js`).

JavaScript conventions mirrored here:
* `undefined`/missing arguments are `Option.none`; a missing string argument
  is distinguished from the empty string (both are falsy, only `""` is a string).
* `Array.prototype.indexOf` returns `-1` on a miss, so its embedding returns `Int`.
* `Array.prototype.splice(i, 1)` with a negative `i` counts from the end
  (`splice(-1, 1)` drops the last element); the embedding clamps like JS does.
* Numeric truthiness: a number is falsy exactly when it is `0` (or `NaN`,
  which the rational model excludes).
-/

namespace WDI

/-- Focus area `{region, country}` of the Selection Model (src/js/selected.js). -/
structure Area where
  region : String
  country : String
  deriving DecidableEq, Repr

/-- Modelled from the spec: the external collaborators of the Selection Model that
are repository code not under src/ — `InputSanitizer.formatCountryOrRegionNames`
(case/whitespace canonicalization), `Countries.isSameCountryName` (name-equivalence
handling alternate spellings), and `RegionMapper.getCountriesOfRegion` (region to
country-name list). They are kept abstract; theorems quantify over them. -/
structure Externals where
  sanitize : String → String
  isSameCountryName : String → String → Bool
  countriesOfRegion : String → List String

/-- State of the `Selected` class (src/js/selected.js). The two dispatcher fields
record whether `this.dispatcher` / `this.dispatcherEvents` are set (truthy). -/
structure Selected where
  area : Area
  comparisonAreas : List String
  indicator : String
  timeInterval : Option (Int × Int)
  allSelectedAreas : List String
  hasDispatcher : Bool
  hasDispatcherEvents : Bool
  deriving DecidableEq, Repr

/-- JS `Array.prototype.indexOf` on string arrays: index of first exact match, `-1` if absent. -/
def jsIndexOf (l : List String) (x : String) : Int :=
  match l with
  | [] => -1
  | a :: rest =>
    if a == x then 0
    else
      let r := jsIndexOf rest x
      if r < 0 then -1 else r + 1

/-- JS `Array.prototype.splice(i, 1)`: removes the element at `i`, counting from the
end when `i` is negative (clamped at the front), removing nothing past the end. -/
def jsSplice1 (l : List String) (i : Int) : List String :=
  if i < 0 then l.eraseIdx ((l.length + i).toNat)
  else l.eraseIdx i.toNat

/-- `Indicators.POPULATION_TOTAL`, the default indicator of the constructor. -/
def POPULATION_TOTAL : String := "Population, total"

/-- `updateAllSelectedAreas` (selected.js lines 173-180): sanitizes the focus region
and country and prepends the focus (country if non-empty after sanitizing, else the
region) to the comparison list. -/
def updateAllSelectedAreas (ext : Externals) (area : Area) (comparisonAreas : List String) :
    List String :=
  let region := ext.sanitize area.region
  let country := ext.sanitize area.country
  if country ≠ "" then country :: comparisonAreas else region :: comparisonAreas

/-- The `Selected` constructor (selected.js lines 15-30): defaults are
region `"World"`, empty country, empty comparison list, `POPULATION_TOTAL`, no time
interval. It stores the given dispatcher but never sets `this.dispatcherEvents`. -/
def construct (ext : Externals) (selectedArea : Option Area)
    (selectedComparisonAreas : Option (List String)) (selectedIndicator : String)
    (selectedTimeInterval : Option (Int × Int)) (dispatcher : Bool) : Selected :=
  let area := selectedArea.getD ⟨"World", ""⟩
  let comparisonAreas := selectedComparisonAreas.getD []
  let indicator := if selectedIndicator = "" then POPULATION_TOTAL else selectedIndicator
  { area := area
    comparisonAreas := comparisonAreas
    indicator := indicator
    timeInterval := selectedTimeInterval
    allSelectedAreas := updateAllSelectedAreas ext area comparisonAreas
    hasDispatcher := dispatcher
    hasDispatcherEvents := false }

/-- `addComparisonArea` (selected.js lines 37-55). Returns the new state and whether
the `ERROR_TOO_MANY_COMPARISONS` dispatcher call fired. The source pushes only when
the name is not the focus, the list is not full and the name is not already present;
otherwise, if the list is full, it calls the dispatcher (when both `dispatcher` and
`dispatcherEvents` are set). `updateAllSelectedAreas` runs in every case. -/
def addComparisonArea (ext : Externals) (countryOrRegion : String) (s : Selected) :
    Selected × Bool :=
  let n := ext.sanitize countryOrRegion
  let isFocusArea := s.area.region == n || s.area.country == n
  let isComparisonListFull := decide (4 ≤ s.comparisonAreas.length)
  let isAlreadyInList := s.comparisonAreas.contains n
  if !isFocusArea && !isComparisonListFull && !isAlreadyInList then
    let comp := s.comparisonAreas ++ [n]
    ({ s with comparisonAreas := comp
              allSelectedAreas := updateAllSelectedAreas ext s.area comp }, false)
  else
    let emitted := isComparisonListFull && s.hasDispatcher && s.hasDispatcherEvents
    ({ s with allSelectedAreas := updateAllSelectedAreas ext s.area s.comparisonAreas },
     emitted)

/-- `removeComparisonArea` (selected.js lines 61-71): removes the first exact match,
recomputing `allSelectedAreas` only when something was removed. -/
def removeComparisonArea (ext : Externals) (countryOrRegion : String) (s : Selected) :
    Selected :=
  let index := jsIndexOf s.comparisonAreas countryOrRegion
  if index > -1 then
    let comp := jsSplice1 s.comparisonAreas index
    { s with comparisonAreas := comp
             allSelectedAreas := updateAllSelectedAreas ext s.area comp }
  else s

/-- `isFocusCountryInList` (selected.js lines 92-101): a truthy country that is
name-equivalent to some comparison entry. -/
def isFocusCountryInList (ext : Externals) (comparisonAreas : List String)
    (focusedCountry : Option String) : Bool :=
  match focusedCountry with
  | none => false
  | some c => !(c == "") && comparisonAreas.any (fun a => ext.isSameCountryName a c)

/-- `updateComparisonArea` (selected.js lines 77-90), acting on the comparison list.
It is keyed on the *passed* `{region, country}`: if the passed country is
name-equivalent to some entry, `splice(indexOf(country), 1)` runs (dropping the last
element when only an equivalent spelling, not the exact string, is present);
otherwise, if the passed region is exactly present, it is removed. -/
def updateComparisonArea (ext : Externals) (focusedRegion focusedCountry : Option String)
    (comparisonAreas : List String) : List String :=
  if isFocusCountryInList ext comparisonAreas focusedCountry then
    jsSplice1 comparisonAreas (jsIndexOf comparisonAreas (focusedCountry.getD ""))
  else if (match focusedRegion with
           | some r => comparisonAreas.contains r
           | none => false) then
    jsSplice1 comparisonAreas (jsIndexOf comparisonAreas (focusedRegion.getD ""))
  else comparisonAreas

/-- `setCountry` (selected.js lines 124-132): adopts a truthy country only when it is
in the country set of the currently active region; otherwise keeps the prior country. -/
def setCountry (ext : Externals) (country : Option String) (area : Area) : Area :=
  match country with
  | none => area
  | some c =>
    if c = "" then area
    else if (ext.countriesOfRegion area.region).contains c then { area with country := c }
    else area

/-- The region adopted by `setArea` (selected.js line 110): the sanitized passed
region when truthy, else the prior region. -/
def regionAfterSetArea (ext : Externals) (region : Option String) (s : Selected) : String :=
  match region with
  | none => s.area.region
  | some r => if r = "" then s.area.region else ext.sanitize r

/-- `setArea` (selected.js lines 109-118): updates the region, runs the
country-setter against the now-active region, removes the passed raw area names from
the comparison list via `updateComparisonArea`, and recomputes `allSelectedAreas`. -/
def setArea (ext : Externals) (region country : Option String) (s : Selected) : Selected :=
  let area1 : Area := { s.area with region := regionAfterSetArea ext region s }
  let area2 := setCountry ext country area1
  let comp := updateComparisonArea ext region country s.comparisonAreas
  { s with area := area2
           comparisonAreas := comp
           allSelectedAreas := updateAllSelectedAreas ext area2 comp }

/-- `setIndicator` (selected.js lines 138-142): replaces the indicator when truthy. -/
def setIndicator (indicator : String) (s : Selected) : Selected :=
  if indicator = "" then s else { s with indicator := indicator }

/-- `setTimeInterval` (selected.js lines 149-153): replaces the interval only when
both bounds are truthy (a year `0` is falsy in JS). -/
def setTimeInterval (min max : Int) (s : Selected) : Selected :=
  if min ≠ 0 ∧ max ≠ 0 then { s with timeInterval := some (min, max) } else s

/-- `setItems` (selected.js lines 162-166): `setArea`, then `setIndicator`, then
`setTimeInterval`. -/
def setItems (ext : Externals) (region country : Option String) (indicator : String)
    (minYear maxYear : Int) (s : Selected) : Selected :=
  setTimeInterval minYear maxYear (setIndicator indicator (setArea ext region country s))

/-- `setDispatcher` (selected.js lines 182-185): registers both the dispatcher and
the dispatcher-events table. -/
def setDispatcher (dispatcher dispatcherEvents : Bool) (s : Selected) : Selected :=
  { s with hasDispatcher := dispatcher, hasDispatcherEvents := dispatcherEvents }

/-- One public mutating operation of the Selection Model. -/
inductive Op where
  | addComparisonArea (name : String)
  | removeComparisonArea (name : String)
  | setArea (region country : Option String)
  | setIndicator (indicator : String)
  | setTimeInterval (minYear maxYear : Int)
  | setItems (region country : Option String) (indicator : String) (minYear maxYear : Int)
  | setDispatcher (dispatcher dispatcherEvents : Bool)
  deriving DecidableEq, Repr

/-- Apply one operation; the Bool reports whether `ERROR_TOO_MANY_COMPARISONS` fired. -/
def applyOpE (ext : Externals) (s : Selected) : Op → Selected × Bool
  | .addComparisonArea n => addComparisonArea ext n s
  | .removeComparisonArea n => (removeComparisonArea ext n s, false)
  | .setArea r c => (setArea ext r c s, false)
  | .setIndicator i => (setIndicator i s, false)
  | .setTimeInterval mn mx => (setTimeInterval mn mx s, false)
  | .setItems r c i mn mx => (setItems ext r c i mn mx s, false)
  | .setDispatcher d e => (setDispatcher d e s, false)

/-- Apply one operation, dropping the event flag. -/
def applyOp (ext : Externals) (s : Selected) (op : Op) : Selected :=
  (applyOpE ext s op).1

/-- Run a sequence of operations. -/
def runOps (ext : Externals) (s : Selected) (ops : List Op) : Selected :=
  ops.foldl (applyOp ext) s

/-- Run a sequence of operations, also reporting whether any
`ERROR_TOO_MANY_COMPARISONS` fired along the way. -/
def runOpsEmit (ext : Externals) (s : Selected) (ops : List Op) : Selected × Bool :=
  ops.foldl (fun p op =>
    let q := applyOpE ext p.1 op
    (q.1, p.2 || q.2)) (s, false)

/-- Whether an operation is `setDispatcher`. -/
def Op.isSetDispatcher : Op → Bool
  | .setDispatcher _ _ => true
  | _ => false

/-! ## GeoMap data pipeline (src/js/visualizations/geoMap.js) -/

/-- One raw observation record `{CountryCode, IndicatorName, Year, Value}`. -/
structure Obs where
  CountryCode : String
  IndicatorName : String
  Year : Int
  Value : ℚ
  deriving DecidableEq, Repr

/-- The filter of `updateData` (geoMap.js line 273): keep observations whose year is
in the selected year set and whose `IndicatorName` equals the selected indicator. -/
def filteredData (data : List Obs) (selectedYears : List Int) (indicator : String) :
    List Obs :=
  data.filter (fun d => selectedYears.contains d.Year && d.IndicatorName == indicator)

/-- The `d3.rollup` of `updateData` (geoMap.js line 276) observed through `get`:
group the filtered observations by `CountryCode` and reduce each group to the
arithmetic mean of `Value`; a country with no matching observation has no entry. -/
def groupedData (data : List Obs) (selectedYears : List Int) (indicator : String)
    (countryCode : String) : Option ℚ :=
  let g := (filteredData data selectedYears indicator).filter
    (fun d => d.CountryCode == countryCode)
  if g.isEmpty then none else some ((g.map Obs.Value).sum / (g.length : ℚ))

/-- The final aggregate of `updateData` (geoMap.js lines 276-283): the rollup with
the world aggregate code `"WLD"` deleted afterwards. -/
def updateDataGrouped (data : List Obs) (selectedYears : List Int) (indicator : String)
    (countryCode : String) : Option ℚ :=
  if countryCode == "WLD" then none
  else groupedData data selectedYears indicator countryCode

/-- JS `>` against a number that may be `NaN` (`none`): any comparison with `NaN`
is false. -/
def jsGt (d : Option ℚ) (t : ℚ) : Bool :=
  match d with
  | none => false
  | some q => decide (t < q)

/-- `getTileColor` (geoMap.js lines 383-390): fixed-threshold colour bins, with the
`isNaN` check after the four threshold tests. -/
def getTileColor (d : Option ℚ) : String :=
  if jsGt d 0.8 then "#08519c"
  else if jsGt d 0.6 then "#3182bd"
  else if jsGt d 0.4 then "#6baed6"
  else if jsGt d 0.2 then "#bdd7e7"
  else if d.isNone then "#808080"
  else "#eff3ff"

/-- The average line of `showTooltip` (geoMap.js lines 532-533):
`average = average ? vis.format(average) : 'N/A'` — a missing aggregate is
`undefined` (falsy) and an aggregate of exactly `0` is also falsy. -/
def showTooltipAverage (format : ℚ → String) (average : Option ℚ) : String :=
  match average with
  | none => "N/A"
  | some v => if v = 0 then "N/A" else format v

/-- Modelled from the spec: a concrete instantiation of the external collaborators,
consistent with their interfaces — canonical names are fixed points of the
case/whitespace sanitizer, name-equivalence relates equal names, and Europe's
country set contains France, Germany and Spain. Used for concrete traces. -/
def extEx : Externals :=
  { sanitize := fun s => s
    isSameCountryName := fun a b => a == b
    countriesOfRegion := fun r => if r == "Europe" then ["France", "Germany", "Spain"] else [] }

/-! ## Helper lemmas -/

theorem jsIndexOf_nonneg {l : List String} {x : String} (h : x ∈ l) :
    0 ≤ jsIndexOf l x := by
  induction l with
  | nil => cases h
  | cons a rest ih =>
    by_cases hax : (a == x) = true
    · simp [jsIndexOf, hax]
    · rcases List.mem_cons.mp h with h1 | h2
      · exact absurd (beq_iff_eq.mpr h1.symm) (by simpa using hax)
      · have hr := ih h2
        have hcond : ¬jsIndexOf rest x < 0 := by omega
        simp only [jsIndexOf, hax, if_false]
        rw [if_neg hcond]
        omega

theorem jsSplice1_jsIndexOf_eq_erase {l : List String} {x : String} (h : x ∈ l) :
    jsSplice1 l (jsIndexOf l x) = l.erase x := by
  induction l with
  | nil => cases h
  | cons a rest ih =>
    by_cases hax : (a == x) = true
    · simp [jsIndexOf, hax, jsSplice1, List.erase_cons_head, beq_iff_eq.mp hax]
    · have hx : x ∈ rest := by
        rcases List.mem_cons.mp h with h1 | h2
        · exact absurd (beq_iff_eq.mpr h1.symm) (by simpa using hax)
        · exact h2
      have hnn := jsIndexOf_nonneg hx
      have hne : a ≠ x := by simpa using hax
      have hcond : ¬jsIndexOf rest x < 0 := by omega
      have hcond1 : ¬jsIndexOf rest x + 1 < 0 := by omega
      simp only [jsIndexOf, hax, Bool.false_eq_true, if_false]
      rw [if_neg hcond]
      simp only [jsSplice1]
      rw [if_neg hcond1]
      have htn : (jsIndexOf rest x + 1).toNat = (jsIndexOf rest x).toNat + 1 := by omega
      rw [htn, List.eraseIdx_cons_succ, List.erase_cons_tail (by simpa using hax)]
      have hrec := ih hx
      simp only [jsSplice1] at hrec
      rw [if_neg hcond] at hrec
      rw [hrec]

/-! ## Claim theorems -/

/-- C9: `getTileColor` partitions scaled values with upper-exclusive thresholds:
`d > 0.8` gives the darkest bin, `0.6 < d ≤ 0.8` the next bin (so exactly `0.8`
falls in the `>0.6` bin), `0.4 < d ≤ 0.6` and `0.2 < d ≤ 0.4` the middle bins,
every `d ≤ 0.2` the lightest bin, and a `NaN` input the neutral-gray missing bin. -/
theorem C9_thm :
    getTileColor none = "#808080" ∧
    ∀ q : ℚ,
      (0.8 < q → getTileColor (some q) = "#08519c") ∧
      (0.6 < q ∧ q ≤ 0.8 → getTileColor (some q) = "#3182bd") ∧
      (0.4 < q ∧ q ≤ 0.6 → getTileColor (some q) = "#6baed6") ∧
      (0.2 < q ∧ q ≤ 0.4 → getTileColor (some q) = "#bdd7e7") ∧
      (q ≤ 0.2 → getTileColor (some q) = "#eff3ff") := by
  refine ⟨by decide, fun q => ⟨?_, ?_, ?_, ?_, ?_⟩⟩ <;> intro h <;>
    simp only [getTileColor, jsGt, decide_eq_true_eq, Option.isNone_some,
      Bool.false_eq_true, if_false]
  · rw [if_pos h]
  · rw [if_neg (not_lt.mpr h.2), if_pos h.1]
  · have h8 : ¬(0.8 : ℚ) < q := not_lt.mpr (h.2.trans (by norm_num))
    rw [if_neg h8, if_neg (not_lt.mpr h.2), if_pos h.1]
  · have h8 : ¬(0.8 : ℚ) < q := not_lt.mpr (h.2.trans (by norm_num))
    have h6 : ¬(0.6 : ℚ) < q := not_lt.mpr (h.2.trans (by norm_num))
    rw [if_neg h8, if_neg h6, if_neg (not_lt.mpr h.2), if_pos h.1]
  · have h8 : ¬(0.8 : ℚ) < q := not_lt.mpr (h.trans (by norm_num))
    have h6 : ¬(0.6 : ℚ) < q := not_lt.mpr (h.trans (by norm_num))
    have h4 : ¬(0.4 : ℚ) < q := not_lt.mpr (h.trans (by norm_num))
    rw [if_neg h8, if_neg h6, if_neg h4, if_neg (not_lt.mpr h)]

/-- C9 witness: a scaled value of exactly `0.8` lands in the second (`>0.6`) bin. -/
theorem C9_witness : getTileColor (some 0.8) = "#3182bd" :=
  ((C9_thm.2 0.8).2.1 ⟨by norm_num, le_refl _⟩)

/-- C7: the aggregation stage keeps exactly the observations whose year is in the
selected year set and whose `IndicatorName` equals the selected indicator, groups
them by `CountryCode`, and maps each country to the arithmetic mean of `Value`;
a country with no matching observation gets no entry, `"WLD"` is deleted after
aggregation, and aggregating `{USA,2010,10,X}` and `{USA,2011,20,X}` over indicator
`"X"` and years `{2010, 2011}` gives `15` for `"USA"`. -/
theorem C7_thm (data : List Obs) (years : List Int) (ind : String) :
    (∀ d : Obs, d ∈ filteredData data years ind ↔
      d ∈ data ∧ d.Year ∈ years ∧ d.IndicatorName = ind) ∧
    (∀ c : String, c ≠ "WLD" →
      updateDataGrouped data years ind c =
        (let g := data.filter
          (fun d => d.CountryCode == c && (years.contains d.Year && d.IndicatorName == ind))
         if g.isEmpty then none else some ((g.map Obs.Value).sum / (g.length : ℚ)))) ∧
    updateDataGrouped data years ind "WLD" = none ∧
    updateDataGrouped [⟨"USA", "X", 2010, 10⟩, ⟨"USA", "X", 2011, 20⟩]
      [2010, 2011] "X" "USA" = some 15 := by
  refine ⟨?_, ?_, ?_, ?_⟩
  · intro d
    simp [filteredData, List.mem_filter, List.contains, List.elem_iff, and_assoc]
  · intro c hc
    have hwld : (c == "WLD") = false := beq_eq_false_iff_ne.mpr hc
    simp only [updateDataGrouped, hwld, Bool.false_eq_true, if_false, groupedData,
      filteredData, List.filter_filter]
  · rfl
  · norm_num +decide [updateDataGrouped, groupedData, filteredData]

/-- C7 witness: the second conjunct of the aggregation theorem evaluated at the
concrete two-observation dataset and the country `"USA"`. -/
theorem C7_witness :
    updateDataGrouped [⟨"USA", "X", 2010, 10⟩, ⟨"USA", "X", 2011, 20⟩]
      [2010, 2011] "X" "USA" =
      (let g := [Obs.mk "USA" "X" 2010 10, Obs.mk "USA" "X" 2011 20].filter
        (fun d => d.CountryCode == "USA" &&
          (List.contains [2010, 2011] d.Year && d.IndicatorName == "X"))
       if g.isEmpty then none else some ((g.map Obs.Value).sum / (g.length : ℚ))) :=
  (C7_thm [⟨"USA", "X", 2010, 10⟩, ⟨"USA", "X", 2011, 20⟩] [2010, 2011] "X").2.1
    "USA" (by decide)

/-- C8 counterexample: for the dataset `[{USA, X, 2010, 0}]` with years `{2010}` and
indicator `"X"`, an aggregate for `"USA"` exists and equals `0`, yet the tooltip
average line renders `"N/A"` — the JS truthiness test `average ? format(average) :
'N/A'` conflates a zero mean with a missing aggregate. -/
theorem C8_counterexample :
    updateDataGrouped [⟨"USA", "X", 2010, 0⟩] [2010] "X" "USA" = some 0 ∧
    showTooltipAverage (fun _ => "0.00")
      (updateDataGrouped [⟨"USA", "X", 2010, 0⟩] [2010] "X" "USA") = "N/A" := by
  constructor
  · norm_num +decide [updateDataGrouped, groupedData, filteredData]
  · norm_num +decide [updateDataGrouped, groupedData, filteredData, showTooltipAverage]

/-- C8 (amended): the tooltip shows `"N/A"` as the aggregate value if and only if
no aggregate entry exists for the hovered country or the aggregate mean is exactly
`0` (both are falsy in JS); only a non-zero mean reaches the value formatter. -/
theorem C8_thm (format : ℚ → String)
    (hf : ∀ v : ℚ, v ≠ 0 → format v ≠ "N/A") (average : Option ℚ) :
    showTooltipAverage format average = "N/A" ↔ average = none ∨ average = some 0 := by
  cases average with
  | none => simp [showTooltipAverage]
  | some v =>
    by_cases hv : v = 0
    · simp [showTooltipAverage, hv]
    · simp only [showTooltipAverage, if_neg hv, Option.some.injEq]
      constructor
      · intro hcontra
        exact absurd hcontra (hf v hv)
      · rintro (h | h)
        · cases h
        · exact absurd h hv

/-- C8 witness: with a formatter that never returns `"N/A"`, a zero aggregate still
renders `"N/A"`. -/
theorem C8_witness :
    showTooltipAverage (fun _ => "0.00") (some 0) = "N/A" :=
  (C8_thm (fun _ => "0.00")
    (fun v hv => by change "0.00" ≠ "N/A"; decide) (some 0)).mpr (Or.inr rfl)

/-- A state whose comparison list already has 4 entries and whose dispatcher and
dispatcher-events table are both registered. -/
def fullState : Selected :=
  { area := ⟨"World", ""⟩
    comparisonAreas := ["A", "B", "C", "D"]
    indicator := "Ind"
    timeInterval := none
    allSelectedAreas := ["World", "A", "B", "C", "D"]
    hasDispatcher := true
    hasDispatcherEvents := true }

/-- C3: from every state whose comparison list already has 4 entries (with the
dispatcher and its events table registered), `addComparisonArea` with a new name
(not a duplicate, not the focus) emits `ERROR_TOO_MANY_COMPARISONS` and leaves the
comparison list unchanged — the same 4 entries in the same order. -/
theorem C3_thm (ext : Externals) (s : Selected) (name : String)
    (hlen : s.comparisonAreas.length = 4)
    (hd : s.hasDispatcher = true) (he : s.hasDispatcherEvents = true)
    (_hnew : ext.sanitize name ∉ s.comparisonAreas)
    (_hnf : ext.sanitize name ≠ s.area.region ∧ ext.sanitize name ≠ s.area.country) :
    (addComparisonArea ext name s).2 = true ∧
    (addComparisonArea ext name s).1.comparisonAreas = s.comparisonAreas := by
  have hfull : decide (4 ≤ s.comparisonAreas.length) = true := by simp [hlen]
  simp [addComparisonArea, hfull, hd, he]

/-- C3 witness: adding a fifth area to a full list with the dispatcher registered
fires the event and keeps the list intact. -/
theorem C3_witness :
    (addComparisonArea extEx "Egypt" fullState).2 = true ∧
    (addComparisonArea extEx "Egypt" fullState).1.comparisonAreas
      = fullState.comparisonAreas :=
  C3_thm extEx fullState "Egypt" (by decide) rfl rfl (by decide)
    ⟨by decide, by decide⟩

/-- C4 counterexample: in a state with a full comparison list and a registered
dispatcher, `addComparisonArea` of the current focus region name is *not* silent:
the list is unchanged but `ERROR_TOO_MANY_COMPARISONS` fires, because the source's
`else if (isComparisonListFull)` branch runs whenever the list is full, regardless
of why the push was rejected. -/
theorem C4_counterexample :
    extEx.sanitize "World" = fullState.area.region ∧
    (addComparisonArea extEx "World" fullState).1.comparisonAreas
      = fullState.comparisonAreas ∧
    (addComparisonArea extEx "World" fullState).2 = true := by decide

/-- C4 (amended): a name whose sanitized form equals the focus country or region,
or which is already present, never changes the comparison list; the rejection is
silent whenever the list has fewer than 4 entries, but when the list is full the
`ERROR_TOO_MANY_COMPARISONS` event fires anyway (provided both dispatcher and
dispatcher-events are registered). -/
theorem C4_thm (ext : Externals) (s : Selected) (name : String)
    (hrej : ext.sanitize name = s.area.region ∨ ext.sanitize name = s.area.country ∨
      ext.sanitize name ∈ s.comparisonAreas) :
    (addComparisonArea ext name s).1.comparisonAreas = s.comparisonAreas ∧
    (s.comparisonAreas.length < 4 → (addComparisonArea ext name s).2 = false) ∧
    (4 ≤ s.comparisonAreas.length →
      (addComparisonArea ext name s).2 = (s.hasDispatcher && s.hasDispatcherEvents)) := by
  have hno : ¬(((¬s.area.region = ext.sanitize name ∧ ¬s.area.country = ext.sanitize name) ∧
      s.comparisonAreas.length < 4) ∧ ext.sanitize name ∉ s.comparisonAreas) := by
    rcases hrej with h | h | h
    · exact fun hcontra => hcontra.1.1.1 h.symm
    · exact fun hcontra => hcontra.1.1.2 h.symm
    · exact fun hcontra => hcontra.2 h
  have hlist : (addComparisonArea ext name s).1.comparisonAreas = s.comparisonAreas := by
    simp [addComparisonArea, hno]
  have hemit : (addComparisonArea ext name s).2 =
      (decide (4 ≤ s.comparisonAreas.length) && s.hasDispatcher && s.hasDispatcherEvents) := by
    simp [addComparisonArea, hno]
  refine ⟨hlist, ?_, ?_⟩
  · intro hlt
    have hfull : decide (4 ≤ s.comparisonAreas.length) = false := by
      simp only [decide_eq_false_iff_not]
      omega
    rw [hemit, hfull]
    simp
  · intro hge
    have hfull : decide (4 ≤ s.comparisonAreas.length) = true := by simp [hge]
    rw [hemit, hfull]
    simp

/-- C4 witness: a duplicate name on a 3-entry list is rejected with no event. -/
theorem C4_witness :
    (addComparisonArea extEx "A"
      { fullState with comparisonAreas := ["A", "B", "C"] }).1.comparisonAreas
      = ["A", "B", "C"] ∧
    (addComparisonArea extEx "A"
      { fullState with comparisonAreas := ["A", "B", "C"] }).2 = false :=
  ⟨(C4_thm extEx { fullState with comparisonAreas := ["A", "B", "C"] } "A"
      (Or.inr (Or.inr (by decide)))).1,
   (C4_thm extEx { fullState with comparisonAreas := ["A", "B", "C"] } "A"
      (Or.inr (Or.inr (by decide)))).2.1 (by decide)⟩

/-- C6: the country-setter invoked by `setArea` ignores a country name that is not
in the country set of the currently active region (the focus country keeps its
prior value), and adopts a country name that is in that set. -/
theorem C6_thm (ext : Externals) (s : Selected) (region : Option String) (c : String)
    (hc : c ≠ "") :
    (c ∉ ext.countriesOfRegion (regionAfterSetArea ext region s) →
      (setArea ext region (some c) s).area.country = s.area.country) ∧
    (c ∈ ext.countriesOfRegion (regionAfterSetArea ext region s) →
      (setArea ext region (some c) s).area.country = c) := by
  constructor <;> intro h <;>
    simp [setArea, setCountry, hc, List.contains, List.elem_iff, h]

/-- C6 witness: `"France"` is in Europe's country set, so it is adopted;
`"France"` is not in the World country set of the default state, so it is ignored
there. -/
theorem C6_witness :
    (setArea extEx (some "Europe") (some "France")
      (construct extEx none none "" none false)).area.country = "France" ∧
    (setArea extEx none (some "France")
      (construct extEx none none "" none false)).area.country = "" :=
  ⟨(C6_thm extEx (construct extEx none none "" none false) (some "Europe") "France"
      (by decide)).2 (by decide),
   (C6_thm extEx (construct extEx none none "" none false) none "France"
      (by decide)).1 (by decide)⟩

/-- A reachable state whose comparison list already contained both the region and
the country that `setArea` then adopts as the focus. -/
def selEurope : Selected :=
  construct extEx (some ⟨"World", ""⟩) (some ["Europe"]) "" none false

/-- C5 counterexample: from the reachable state with comparison list `["Europe"]`
and focus `{World, ""}`, `setArea({region: "Europe", country: "France"})` adopts
`"France"` as the focus country, yet removes `"Europe"` — an entry different from
the new focus name — from the comparison list: the removal is keyed on the passed
raw region/country, not on the adopted focus. -/
theorem C5_counterexample :
    "Europe" ∈ selEurope.comparisonAreas ∧
    (setArea extEx (some "Europe") (some "France") selEurope).area.country = "France" ∧
    ("Europe" : String) ≠ "France" ∧
    "Europe" ∉ (setArea extEx (some "Europe") (some "France") selEurope).comparisonAreas := by
  decide

/-- C5 (amended): the removal `setArea` performs on the comparison list is keyed on
the *passed* raw names, not on the adopted focus: if the passed country is non-empty
and exactly present (with the name-equivalence reflexive at it), its first occurrence
is removed — independently of whether the country-setter adopted it; otherwise, if
the passed country matches no entry under name-equivalence and the passed region is
exactly present, the region's first occurrence is removed. All other entries are
retained in their original order (`List.erase` removes exactly the first occurrence). -/
theorem C5_thm (ext : Externals) (s : Selected) (regionArg countryArg : Option String) :
    (∀ c, countryArg = some c → c ≠ "" → ext.isSameCountryName c c = true →
      c ∈ s.comparisonAreas →
      (setArea ext regionArg countryArg s).comparisonAreas = s.comparisonAreas.erase c) ∧
    (∀ r, regionArg = some r → r ∈ s.comparisonAreas →
      isFocusCountryInList ext s.comparisonAreas countryArg = false →
      (setArea ext regionArg countryArg s).comparisonAreas = s.comparisonAreas.erase r) := by
  constructor
  · rintro c rfl hc hsame hmem
    have hcne : (c == "") = false := beq_eq_false_iff_ne.mpr hc
    have hany : s.comparisonAreas.any (fun a => ext.isSameCountryName a c) = true :=
      List.any_eq_true.mpr ⟨c, hmem, hsame⟩
    have hfocus : isFocusCountryInList ext s.comparisonAreas (some c) = true := by
      simp [isFocusCountryInList, hcne, hany]
    show (updateComparisonArea ext regionArg (some c) s.comparisonAreas) =
      s.comparisonAreas.erase c
    unfold updateComparisonArea
    rw [if_pos hfocus]
    exact jsSplice1_jsIndexOf_eq_erase hmem
  · rintro r rfl hmem hnof
    have hcont : s.comparisonAreas.contains r = true := by
      simp [List.contains, List.elem_iff, hmem]
    show (updateComparisonArea ext (some r) countryArg s.comparisonAreas) =
      s.comparisonAreas.erase r
    unfold updateComparisonArea
    rw [if_neg (by simp [hnof]), if_pos hcont]
    exact jsSplice1_jsIndexOf_eq_erase hmem

/-- C5 witness: a passed country that the country-setter rejects (France is not in
the empty World country set here) is still removed from the comparison list, and the
other entry is retained. -/
theorem C5_witness :
    (setArea extEx (some "World") (some "France")
      { selEurope with comparisonAreas := ["Spain", "France"] }).comparisonAreas =
      (["Spain", "France"] : List String).erase "France" :=
  (C5_thm extEx { selEurope with comparisonAreas := ["Spain", "France"] }
    (some "World") (some "France")).1 "France" rfl (by decide) (by decide) (by decide)

/-- The comparison-list invariant the spec ascribes to the Selection Model. -/
def ComparisonInvariant (s : Selected) : Prop :=
  s.comparisonAreas.length ≤ 4 ∧ s.comparisonAreas.Nodup ∧
  s.area.region ∉ s.comparisonAreas ∧ s.area.country ∉ s.comparisonAreas

theorem addComparisonArea_pushed (ext : Externals) (n : String) (s : Selected)
    (h1 : ¬s.area.region = ext.sanitize n) (h2 : ¬s.area.country = ext.sanitize n)
    (h3 : s.comparisonAreas.length < 4) (h4 : ext.sanitize n ∉ s.comparisonAreas) :
    (addComparisonArea ext n s).1.comparisonAreas = s.comparisonAreas ++ [ext.sanitize n] ∧
    (addComparisonArea ext n s).1.area = s.area := by
  simp [addComparisonArea, h1, h2, h3, h4]

theorem addComparisonArea_not_pushed (ext : Externals) (n : String) (s : Selected)
    (hno : ¬(((¬s.area.region = ext.sanitize n ∧ ¬s.area.country = ext.sanitize n) ∧
      s.comparisonAreas.length < 4) ∧ ext.sanitize n ∉ s.comparisonAreas)) :
    (addComparisonArea ext n s).1.comparisonAreas = s.comparisonAreas ∧
    (addComparisonArea ext n s).1.area = s.area := by
  simp [addComparisonArea, hno]

theorem addComparisonArea_invariant (ext : Externals) (n : String) (s : Selected)
    (h : ComparisonInvariant s) : ComparisonInvariant (addComparisonArea ext n s).1 := by
  obtain ⟨hlen, hnd, hreg, hcty⟩ := h
  by_cases hp : ((¬s.area.region = ext.sanitize n ∧ ¬s.area.country = ext.sanitize n) ∧
      s.comparisonAreas.length < 4) ∧ ext.sanitize n ∉ s.comparisonAreas
  · obtain ⟨⟨⟨h1, h2⟩, h3⟩, h4⟩ := hp
    obtain ⟨hc, ha⟩ := addComparisonArea_pushed ext n s h1 h2 h3 h4
    refine ⟨?_, ?_, ?_, ?_⟩
    · rw [hc]
      simp only [List.length_append, List.length_singleton]
      omega
    · rw [hc, List.nodup_append_comm, List.singleton_append, List.nodup_cons]
      exact ⟨h4, hnd⟩
    · rw [hc, ha]
      simp only [List.mem_append, List.mem_singleton]
      rintro (hmem | hmem)
      · exact hreg hmem
      · exact h1 hmem
    · rw [hc, ha]
      simp only [List.mem_append, List.mem_singleton]
      rintro (hmem | hmem)
      · exact hcty hmem
      · exact h2 hmem
  · obtain ⟨hc, ha⟩ := addComparisonArea_not_pushed ext n s hp
    rw [ComparisonInvariant, hc, ha]
    exact ⟨hlen, hnd, hreg, hcty⟩

/-- C1 counterexample: the state reached from the default construction by
`addComparisonArea("Europe")`, `addComparisonArea("France")`,
`setArea({region: "Europe", country: "France"})` has its current focus region name
`"Europe"` in the comparison list, and it stays there across a further
`addComparisonArea` call — so reachable states do not all satisfy the claimed
invariant. -/
theorem C1_counterexample :
    (runOps extEx (construct extEx none none "" none false)
      [Op.addComparisonArea "Europe", Op.addComparisonArea "France",
       Op.setArea (some "Europe") (some "France")]).area.region ∈
      (runOps extEx (construct extEx none none "" none false)
        [Op.addComparisonArea "Europe", Op.addComparisonArea "France",
         Op.setArea (some "Europe") (some "France")]).comparisonAreas ∧
    (runOps extEx (construct extEx none none "" none false)
      [Op.addComparisonArea "Europe", Op.addComparisonArea "France",
       Op.setArea (some "Europe") (some "France"),
       Op.addComparisonArea "Germany"]).area.region ∈
      (runOps extEx (construct extEx none none "" none false)
        [Op.addComparisonArea "Europe", Op.addComparisonArea "France",
         Op.setArea (some "Europe") (some "France"),
         Op.addComparisonArea "Germany"]).comparisonAreas := by
  decide

/-- C1 (amended): the default-constructed state satisfies the comparison-list
invariant — length ≤ 4, no duplicates, current focus country and region names
absent — and every sequence of `addComparisonArea` calls preserves it from any
state satisfying it. (The claim's "any reachable state" fails: `setArea` can leave
the adopted focus region name in the list, as the counterexample shows.) -/
theorem C1_thm (ext : Externals) (s : Selected) (names : List String) :
    ComparisonInvariant (construct ext none none "" none false) ∧
    (ComparisonInvariant s →
      ComparisonInvariant (runOps ext s (names.map Op.addComparisonArea))) := by
  constructor
  · refine ⟨?_, ?_, ?_, ?_⟩ <;> simp [construct, ComparisonInvariant]
  · intro h
    induction names generalizing s with
    | nil => exact h
    | cons n names ih =>
      exact ih (addComparisonArea ext n s).1 (addComparisonArea_invariant ext n s h)

/-- C1 witness: the preservation applied from the default-constructed state across
two concrete `addComparisonArea` calls. -/
theorem C1_witness :
    ComparisonInvariant (runOps extEx (construct extEx none none "" none false)
      (["Europe", "Asia"].map Op.addComparisonArea)) :=
  (C1_thm extEx (construct extEx none none "" none false) ["Europe", "Asia"]).2
    (by unfold ComparisonInvariant; exact ⟨by decide, by decide, by decide, by decide⟩)

/-- The derived-list consistency the source maintains: `allSelectedAreas` equals
`updateAllSelectedAreas` of the current focus area and comparison list. -/
def AllSelectedWF (ext : Externals) (s : Selected) : Prop :=
  s.allSelectedAreas = updateAllSelectedAreas ext s.area s.comparisonAreas

theorem construct_wf (ext : Externals) (a : Option Area) (ca : Option (List String))
    (ind : String) (ti : Option (Int × Int)) (disp : Bool) :
    AllSelectedWF ext (construct ext a ca ind ti disp) := rfl

theorem addComparisonArea_wf (ext : Externals) (n : String) (s : Selected) :
    AllSelectedWF ext (addComparisonArea ext n s).1 := by
  unfold AllSelectedWF addComparisonArea
  dsimp only
  split <;> rfl

theorem removeComparisonArea_wf (ext : Externals) (n : String) (s : Selected)
    (h : AllSelectedWF ext s) : AllSelectedWF ext (removeComparisonArea ext n s) := by
  unfold AllSelectedWF removeComparisonArea
  dsimp only
  split
  · rfl
  · exact h

theorem setArea_wf (ext : Externals) (r c : Option String) (s : Selected) :
    AllSelectedWF ext (setArea ext r c s) := rfl

theorem setIndicator_wf (ext : Externals) (i : String) (s : Selected)
    (h : AllSelectedWF ext s) : AllSelectedWF ext (setIndicator i s) := by
  unfold AllSelectedWF setIndicator
  split
  · exact h
  · exact h

theorem setTimeInterval_wf (ext : Externals) (mn mx : Int) (s : Selected)
    (h : AllSelectedWF ext s) : AllSelectedWF ext (setTimeInterval mn mx s) := by
  unfold AllSelectedWF setTimeInterval
  split
  · exact h
  · exact h

theorem setItems_wf (ext : Externals) (r c : Option String) (i : String) (mn mx : Int)
    (s : Selected) : AllSelectedWF ext (setItems ext r c i mn mx s) :=
  setTimeInterval_wf ext mn mx _ (setIndicator_wf ext i _ (setArea_wf ext r c s))

theorem applyOp_wf (ext : Externals) (s : Selected) (op : Op)
    (h : AllSelectedWF ext s) : AllSelectedWF ext (applyOp ext s op) := by
  cases op with
  | addComparisonArea n => exact addComparisonArea_wf ext n s
  | removeComparisonArea n => exact removeComparisonArea_wf ext n s h
  | setArea r c => exact setArea_wf ext r c s
  | setIndicator i => exact setIndicator_wf ext i s h
  | setTimeInterval mn mx => exact setTimeInterval_wf ext mn mx s h
  | setItems r c i mn mx => exact setItems_wf ext r c i mn mx s
  | setDispatcher d e => exact h

theorem runOps_wf (ext : Externals) (ops : List Op) :
    ∀ s : Selected, AllSelectedWF ext s → AllSelectedWF ext (runOps ext s ops) := by
  induction ops with
  | nil => exact fun s h => h
  | cons op ops ih => exact fun s h => ih (applyOp ext s op) (applyOp_wf ext s op h)

/-- C2: after construction (with any arguments) and any sequence of mutating
operations, `allSelectedAreas` has length `comparisonAreas.length + 1`; and —
whenever the stored focus names are sanitizer fixed points, as canonical names
are — its first element is the focus country when that is non-empty, otherwise
the focus region. -/
theorem C2_thm (ext : Externals) (a : Option Area) (ca : Option (List String))
    (ind : String) (ti : Option (Int × Int)) (disp : Bool) (ops : List Op) :
    (runOps ext (construct ext a ca ind ti disp) ops).allSelectedAreas.length =
      (runOps ext (construct ext a ca ind ti disp) ops).comparisonAreas.length + 1 ∧
    (ext.sanitize (runOps ext (construct ext a ca ind ti disp) ops).area.country =
        (runOps ext (construct ext a ca ind ti disp) ops).area.country →
      ext.sanitize (runOps ext (construct ext a ca ind ti disp) ops).area.region =
        (runOps ext (construct ext a ca ind ti disp) ops).area.region →
      (runOps ext (construct ext a ca ind ti disp) ops).allSelectedAreas.head? =
        some (if (runOps ext (construct ext a ca ind ti disp) ops).area.country ≠ ""
              then (runOps ext (construct ext a ca ind ti disp) ops).area.country
              else (runOps ext (construct ext a ca ind ti disp) ops).area.region)) := by
  have hwf : AllSelectedWF ext (runOps ext (construct ext a ca ind ti disp) ops) :=
    runOps_wf ext ops _ (construct_wf ext a ca ind ti disp)
  constructor
  · rw [hwf]
    unfold updateAllSelectedAreas
    dsimp only
    split <;> simp
  · intro hcfix hrfix
    rw [hwf]
    unfold updateAllSelectedAreas
    dsimp only
    rw [hcfix, hrfix]
    split <;> simp

/-- C2 witness: the invariant evaluated after a concrete construction and a concrete
operation sequence. -/
theorem C2_witness :
    (runOps extEx (construct extEx none none "" none false)
      [Op.addComparisonArea "Asia"]).allSelectedAreas.length =
      (runOps extEx (construct extEx none none "" none false)
        [Op.addComparisonArea "Asia"]).comparisonAreas.length + 1 ∧
    (runOps extEx (construct extEx none none "" none false)
      [Op.addComparisonArea "Asia"]).allSelectedAreas.head? = some "World" :=
  ⟨(C2_thm extEx none none "" none false [Op.addComparisonArea "Asia"]).1,
   (C2_thm extEx none none "" none false [Op.addComparisonArea "Asia"]).2 rfl rfl⟩

theorem setIndicator_events (i : String) (s : Selected) :
    (setIndicator i s).hasDispatcherEvents = s.hasDispatcherEvents := by
  unfold setIndicator
  split <;> rfl

theorem setTimeInterval_events (mn mx : Int) (s : Selected) :
    (setTimeInterval mn mx s).hasDispatcherEvents = s.hasDispatcherEvents := by
  unfold setTimeInterval
  split <;> rfl

theorem applyOpE_no_events (ext : Externals) (s : Selected) (op : Op)
    (hop : op.isSetDispatcher = false) (hev : s.hasDispatcherEvents = false) :
    (applyOpE ext s op).2 = false ∧
    (applyOpE ext s op).1.hasDispatcherEvents = false := by
  cases op with
  | addComparisonArea n =>
    constructor
    · show (addComparisonArea ext n s).2 = false
      unfold addComparisonArea
      dsimp only
      split
      · rfl
      · simp only [hev, Bool.and_false]
    · show (addComparisonArea ext n s).1.hasDispatcherEvents = false
      unfold addComparisonArea
      dsimp only
      split
      · exact hev
      · exact hev
  | removeComparisonArea n =>
    refine ⟨rfl, ?_⟩
    show (removeComparisonArea ext n s).hasDispatcherEvents = false
    unfold removeComparisonArea
    dsimp only
    split
    · exact hev
    · exact hev
  | setArea r c => exact ⟨rfl, hev⟩
  | setIndicator i => exact ⟨rfl, (setIndicator_events i s).trans hev⟩
  | setTimeInterval mn mx => exact ⟨rfl, (setTimeInterval_events mn mx s).trans hev⟩
  | setItems r c i mn mx =>
    refine ⟨rfl, ?_⟩
    show (setItems ext r c i mn mx s).hasDispatcherEvents = false
    unfold setItems
    rw [setTimeInterval_events, setIndicator_events]
    exact hev
  | setDispatcher d e => exact absurd hop (by simp [Op.isSetDispatcher])

theorem runOpsEmit_no_events (ext : Externals) :
    ∀ (ops : List Op) (s : Selected), s.hasDispatcherEvents = false →
      (∀ op ∈ ops, op.isSetDispatcher = false) → (runOpsEmit ext s ops).2 = false := by
  intro ops
  induction ops with
  | nil => exact fun s _ _ => rfl
  | cons op ops ih =>
    intro s hev hops
    have hstep := applyOpE_no_events ext s op (hops op (List.mem_cons_self op ops)) hev
    have heq : runOpsEmit ext s (op :: ops) = runOpsEmit ext (applyOpE ext s op).1 ops := by
      simp [runOpsEmit, hstep.1]
    rw [heq]
    exact ih (applyOpE ext s op).1 hstep.2 (fun o ho => hops o (List.mem_cons_of_mem op ho))

/-- C10: `ERROR_TOO_MANY_COMPARISONS` can fire only once both a dispatcher and a
dispatcher-events table have been registered via `setDispatcher`: the constructor
stores the given dispatcher but leaves `dispatcherEvents` unset, any emission
requires both to be set, and no operation sequence free of `setDispatcher` — from a
construction with any dispatcher argument — ever fires the event. -/
theorem C10_thm (ext : Externals) (a : Option Area) (ca : Option (List String))
    (ind : String) (ti : Option (Int × Int)) (disp : Bool) (ops : List Op)
    (hops : ∀ op ∈ ops, op.isSetDispatcher = false) :
    (construct ext a ca ind ti disp).hasDispatcher = disp ∧
    (construct ext a ca ind ti disp).hasDispatcherEvents = false ∧
    (∀ (n : String) (t : Selected), (addComparisonArea ext n t).2 = true →
      t.hasDispatcher = true ∧ t.hasDispatcherEvents = true) ∧
    (runOpsEmit ext (construct ext a ca ind ti disp) ops).2 = false := by
  refine ⟨rfl, rfl, ?_, ?_⟩
  · intro n t hemit
    unfold addComparisonArea at hemit
    dsimp only at hemit
    split at hemit
    · exact absurd hemit (by simp)
    · simp only at hemit
      constructor
      · cases hd : t.hasDispatcher
        · rw [hd] at hemit
          simp at hemit
        · rfl
      · cases he : t.hasDispatcherEvents
        · rw [he] at hemit
          simp at hemit
        · rfl
  · exact runOpsEmit_no_events ext ops _ rfl hops

/-- C10 witness: with a dispatcher given to the constructor but `setDispatcher`
never called, a capacity overflow does not fire the event. -/
theorem C10_witness :
    (runOpsEmit extEx (construct extEx none none "" none true)
      [Op.addComparisonArea "A", Op.addComparisonArea "B", Op.addComparisonArea "C",
       Op.addComparisonArea "D", Op.addComparisonArea "E"]).2 = false :=
  (C10_thm extEx none none "" none true
    [Op.addComparisonArea "A", Op.addComparisonArea "B", Op.addComparisonArea "C",
     Op.addComparisonArea "D", Op.addComparisonArea "E"]
    (fun op hop => by fin_cases hop <;> rfl)).2.2.2

end WDI
